import Mathlib

/-!
Verification of `docs/docs/apps.js` (TruthLayer front-end) against its
natural-language specification.

The JavaScript file is shallowly embedded below: pure helpers
(`extractUrls`, `verdictFromScore`, `renderCitations`, score clamping)
become Lean functions on `List Char` / `String` / `ℚ`; the DOM-mutating
event handlers become pure transition functions on an explicit `UI`
record; the outcome of a `fetch` (which is host-environment behaviour)
is an explicit `FetchOutcome` value fed to the handler.  Host-environment
functions that the script calls but does not define (`new URL(u).hostname`
and `JSON.stringify` of the debug object) are parameters gathered in the
`Ext` structure, quantified over in the theorems.

JavaScript numbers are modelled as `ℚ` (claims only concern finite
numeric values), strings as Lean `String`, JS `null`/`undefined`/absent
fields as `Option`.
-/

set_option maxHeartbeats 1000000

namespace TruthLayer

/-! ### JS string primitives -/

/-- Character class of the JavaScript regex `\s` (ECMAScript WhiteSpace
and LineTerminator), also the set removed by `String.prototype.trim`. -/
def isWsChar (c : Char) : Bool :=
  c = ' ' || c = '\t' || c = '\n' || c = '\x0b' || c = '\x0c' || c = '\r' ||
  c = '\u00a0' || c = '\u1680' || ('\u2000' ≤ c && c ≤ '\u200a') ||
  c = '\u2028' || c = '\u2029' || c = '\u202f' || c = '\u205f' ||
  c = '\u3000' || c = '\ufeff'

/-- JS `String.prototype.trim` on the character list. -/
def jsTrimL (l : List Char) : List Char :=
  ((l.dropWhile isWsChar).reverse.dropWhile isWsChar).reverse

/-- JS `String.prototype.trim`. -/
def jsTrimS (s : String) : String := String.mk (jsTrimL s.data)

/-- JS `String.prototype.slice(0, n)` (for `n ≥ 0`). -/
def jsSlice (s : String) (n : Nat) : String := String.mk (s.data.take n)

/-- JS `str.split(sep)` for a single-character separator: splits into
segments, keeping empty segments (`"".split(sep) = [""]`). -/
def splitOnChar (sep : Char) : List Char → List (List Char)
  | [] => [[]]
  | c :: cs =>
    if c = sep then [] :: splitOnChar sep cs
    else
      match splitOnChar sep cs with
      | [] => [[c]]
      | l :: ls => (c :: l) :: ls

/-- JS `s.replace(/</g, "&lt;")` on the character list. -/
def escLtL : List Char → List Char
  | [] => []
  | c :: cs => if c = '<' then '&' :: 'l' :: 't' :: ';' :: escLtL cs else c :: escLtL cs

/-- JS `s.replace(/</g, "&lt;")`. -/
def escLt (s : String) : String := String.mk (escLtL s.data)

/-- JS string truthiness-based `a || b` for an optional string `a`:
`null`/`undefined` and `""` are falsy. -/
def jsOrS (o : Option String) (d : String) : String :=
  match o with
  | some s => if s.isEmpty then d else s
  | none => d

/-! ### Evidence extractor (`extractUrls`, apps.js lines 26–41) -/

/-- Case-insensitive literal prefix match: `pat` is given in lower case;
returns the remainder of `cs` after the prefix when every character of
`cs` lower-cases to the corresponding `pat` character. -/
def stripCI : List Char → List Char → Option (List Char)
  | [], cs => some cs
  | _ :: _, [] => none
  | p :: ps, c :: cs => if c.toLower = p then stripCI ps cs else none

/-- One attempt of the regex `/https?:\/\/[^\s]+/i` anchored at the head
of `cs`: greedy `s?` with backtracking, then a non-empty maximal run of
non-whitespace characters.  Returns the matched text (original case). -/
def matchAt (cs : List Char) : Option (List Char) :=
  match stripCI ['h', 't', 't', 'p'] cs with
  | none => none
  | some rest =>
    match stripCI ['s', ':', '/', '/'] rest with
    | some r =>
      let body := r.takeWhile (fun c => !isWsChar c)
      if body.isEmpty then none else some (cs.take 8 ++ body)
    | none =>
      match stripCI [':', '/', '/'] rest with
      | some r =>
        let body := r.takeWhile (fun c => !isWsChar c)
        if body.isEmpty then none else some (cs.take 7 ++ body)
      | none => none

/-- JS `line.match(/https?:\/\/[^\s]+/i)` then `match[0]`: the leftmost
match of the regex in the line, if any. -/
def firstMatch : List Char → Option (List Char)
  | [] => none
  | c :: cs =>
    match matchAt (c :: cs) with
    | some m => some m
    | none => firstMatch cs

/-- JS `Set`-based de-duplication keeping first occurrences:
`[...new Set(urls)]`.  `seen` is the set accumulated so far. -/
def dedupAux [DecidableEq α] (seen : List α) : List α → List α
  | [] => []
  | x :: xs => if x ∈ seen then dedupAux seen xs else x :: dedupAux (x :: seen) xs

/-- The per-line matches of `extractUrls` before de-duplication: split on
newlines, trim each line, drop empty lines, keep each line's first regex
match (lines without a match contribute nothing). -/
def lineMatches (text : List Char) : List (List Char) :=
  ((((splitOnChar '\n' text).map jsTrimL).filter (fun l => !l.isEmpty)).filterMap firstMatch)

/-- `extractUrls` (apps.js lines 26–41) on the character list: falsy
(empty) input yields `[]`, otherwise the de-duplicated per-line matches. -/
def extractUrlsL (text : List Char) : List (List Char) :=
  if text.isEmpty then [] else dedupAux [] (lineMatches text)

/-- `extractUrls` (apps.js lines 26–41).  The `Option` input models a JS
`null`/`undefined` argument, which `if (!text)` sends to `[]` just like
the empty string. -/
def extractUrls (text : Option String) : List String :=
  match text with
  | none => []
  | some s => (extractUrlsL s.data).map String.mk

/-- Index of the first occurrence of `a` in a list (length of the list
when `a` is absent); used to state first-seen-order preservation. -/
def firstIdx [DecidableEq α] (a : α) : List α → Nat
  | [] => 0
  | x :: xs => if x = a then 0 else firstIdx a xs + 1

/-! ### Verdict thresholds (`verdictFromScore`, apps.js lines 69–74) -/

/-- `verdictFromScore` (apps.js lines 69–74): fallback (label, badge)
pair when the backend provides no verdict. -/
def verdictFromScore (score : ℚ) : String × String :=
  if score ≥ 85 then ("Likely true", "Strong support")
  else if score ≥ 65 then ("Mixed / uncertain", "Some support")
  else if score ≥ 40 then ("Unclear", "Weak support")
  else ("Unclear / likely false", "Low support")

/-- JS `Math.round` on a finite number: the floor of `q + 1/2` (half
rounds toward positive infinity), written on the numerator and
denominator so that it evaluates inside the kernel;
`jsRound_eq_floor_add_half` below checks it against `⌊q + 1/2⌋`. -/
def jsRound (q : ℚ) : ℤ := (Rat.divInt (2 * q.num + q.den) (2 * q.den)).floor

/-- JS `Math.max` on two integers. -/
def jsMax (a b : ℤ) : ℤ := if a ≤ b then b else a

/-- JS `Math.min` on two integers. -/
def jsMin (a b : ℤ) : ℤ := if b ≤ a then b else a

/-- `Math.max(0, Math.min(100, Math.round(score)))` (apps.js line 335). -/
def clampRound (q : ℚ) : ℤ := jsMax 0 (jsMin 100 (jsRound q))

/-- Sanity check of the executable rounding: `jsRound` is the floor of
`q + 1/2`, which is exactly JS `Math.round` on finite numbers. -/
theorem jsRound_eq_floor_add_half (q : ℚ) : jsRound q = ⌊q + 1 / 2⌋ := by
  have hden : ((q.den : ℚ)) ≠ 0 := by
    exact_mod_cast q.den_nz
  have hnum : (q.num : ℚ) = q * q.den := (div_eq_iff hden).mp (Rat.num_div_den q)
  have hval : Rat.divInt (2 * q.num + q.den) (2 * q.den) = q + 1 / 2 := by
    rw [Rat.divInt_eq_div]
    push_cast
    rw [div_eq_iff (mul_ne_zero two_ne_zero hden), hnum]
    ring
  unfold jsRound
  rw [hval, Rat.floor_def', Rat.floor_def]

/-! ### Lemmas about the de-duplication pass -/

theorem dedupAux_not_mem_seen [DecidableEq α] (l : List α) :
    ∀ (seen : List α) (a : α), a ∈ dedupAux seen l → a ∉ seen := by
  induction l with
  | nil => intro seen a h; simp [dedupAux] at h
  | cons x xs ih =>
    intro seen a h
    by_cases hx : x ∈ seen
    · simp only [dedupAux, if_pos hx] at h
      exact ih seen a h
    · simp only [dedupAux, if_neg hx] at h
      rcases List.mem_cons.mp h with rfl | h2
      · exact hx
      · intro hs
        exact ih (x :: seen) a h2 (List.mem_cons_of_mem _ hs)

theorem dedupAux_nodup [DecidableEq α] (l : List α) :
    ∀ seen : List α, (dedupAux seen l).Nodup := by
  induction l with
  | nil => intro seen; simp [dedupAux]
  | cons x xs ih =>
    intro seen
    by_cases hx : x ∈ seen
    · simp only [dedupAux, if_pos hx]; exact ih seen
    · simp only [dedupAux, if_neg hx]
      refine List.nodup_cons.mpr ⟨?_, ih (x :: seen)⟩
      intro hmem
      exact dedupAux_not_mem_seen xs (x :: seen) x hmem (List.mem_cons_self x seen)

theorem dedupAux_sublist [DecidableEq α] (l : List α) :
    ∀ seen : List α, (dedupAux seen l).Sublist l := by
  induction l with
  | nil => intro seen; simp [dedupAux]
  | cons x xs ih =>
    intro seen
    by_cases hx : x ∈ seen
    · simp only [dedupAux, if_pos hx]
      exact (ih seen).cons x
    · simp only [dedupAux, if_neg hx]
      exact (ih (x :: seen)).cons₂ x

theorem dedupAux_complete [DecidableEq α] (l : List α) :
    ∀ (seen : List α) (a : α), a ∈ l → a ∈ seen ∨ a ∈ dedupAux seen l := by
  induction l with
  | nil => intro seen a h; cases h
  | cons x xs ih =>
    intro seen a h
    by_cases hx : x ∈ seen
    · simp only [dedupAux, if_pos hx]
      rcases List.mem_cons.mp h with rfl | h2
      · exact Or.inl hx
      · exact ih seen a h2
    · simp only [dedupAux, if_neg hx]
      rcases List.mem_cons.mp h with rfl | h2
      · exact Or.inr (List.mem_cons_self _ _)
      · rcases ih (x :: seen) a h2 with hs | hd
        · rcases List.mem_cons.mp hs with rfl | hs2
          · exact Or.inr (List.mem_cons_self _ _)
          · exact Or.inl hs2
        · exact Or.inr (List.mem_cons_of_mem _ hd)

theorem firstIdx_cons_self [DecidableEq α] (a : α) (l : List α) :
    firstIdx a (a :: l) = 0 := by
  simp [firstIdx]

theorem firstIdx_cons_ne [DecidableEq α] {x a : α} (h : x ≠ a) (l : List α) :
    firstIdx a (x :: l) = firstIdx a l + 1 := by
  simp [firstIdx, h]

theorem dedupAux_pairwise_firstIdx [DecidableEq α] (l : List α) :
    ∀ seen : List α,
      (dedupAux seen l).Pairwise (fun u v => firstIdx u l < firstIdx v l) := by
  induction l with
  | nil => intro seen; simp [dedupAux]
  | cons x xs ih =>
    intro seen
    by_cases hx : x ∈ seen
    · simp only [dedupAux, if_pos hx]
      refine (ih seen).imp_of_mem ?_
      intro a b ha hb hlt
      have hax : x ≠ a := fun h => (dedupAux_not_mem_seen xs seen a ha) (h ▸ hx)
      have hbx : x ≠ b := fun h => (dedupAux_not_mem_seen xs seen b hb) (h ▸ hx)
      rw [firstIdx_cons_ne hax, firstIdx_cons_ne hbx]
      omega
    · simp only [dedupAux, if_neg hx]
      refine List.pairwise_cons.mpr ⟨?_, ?_⟩
      · intro v hv
        have hvx : x ≠ v := fun h =>
          (dedupAux_not_mem_seen xs (x :: seen) v hv) (h ▸ List.mem_cons_self x seen)
        rw [firstIdx_cons_self, firstIdx_cons_ne hvx]
        omega
      · refine (ih (x :: seen)).imp_of_mem ?_
        intro a b ha hb hlt
        have hax : x ≠ a := fun h =>
          (dedupAux_not_mem_seen xs (x :: seen) a ha) (h ▸ List.mem_cons_self x seen)
        have hbx : x ≠ b := fun h =>
          (dedupAux_not_mem_seen xs (x :: seen) b hb) (h ▸ List.mem_cons_self x seen)
        rw [firstIdx_cons_ne hax, firstIdx_cons_ne hbx]
        omega

theorem stringMk_injective : Function.Injective String.mk := by
  intro a b h
  simpa using congrArg String.data h

theorem firstIdx_map [DecidableEq α] [DecidableEq β] {f : α → β}
    (hf : Function.Injective f) (a : α) :
    ∀ l : List α, firstIdx (f a) (l.map f) = firstIdx a l := by
  intro l
  induction l with
  | nil => rfl
  | cons x xs ih =>
    simp only [List.map_cons, firstIdx]
    by_cases hxa : x = a
    · subst hxa; rw [if_pos rfl, if_pos rfl]
    · rw [if_neg (fun h => hxa (hf h)), if_neg hxa, ih]

/-! ### Claim C1: evidence extractor -/

theorem extractUrlsL_eq_dedup (text : List Char) :
    extractUrlsL text = dedupAux [] (lineMatches text) := by
  cases text with
  | nil => rfl
  | cons c cs => rfl

theorem extractUrls_some (s : String) :
    extractUrls (some s) = (dedupAux [] (lineMatches s.data)).map String.mk := by
  show (extractUrlsL s.data).map String.mk = _
  rw [extractUrlsL_eq_dedup]

/-- C1: `extractUrls` is a total function whose output contains no
duplicate URLs, is a subsequence of the per-line regex matches (so lines
in which the regex finds no `http(s)://` token contribute nothing),
contains every matched URL, and lists URLs in strictly increasing order
of their first occurrence among the matches (first-seen order);
null/undefined input and the empty string yield `[]`, and the spec's
example input yields exactly `["https://a.example/x",
"https://b.example/y"]`. -/
theorem extractUrls_dedup_firstSeen (t : Option String) :
    (extractUrls t).Nodup ∧
    (extractUrls t).Sublist ((lineMatches (t.getD "").data).map String.mk) ∧
    (lineMatches (t.getD "").data).map String.mk ⊆ extractUrls t ∧
    (extractUrls t).Pairwise (fun u v =>
      firstIdx u ((lineMatches (t.getD "").data).map String.mk) <
        firstIdx v ((lineMatches (t.getD "").data).map String.mk)) ∧
    extractUrls none = [] ∧ extractUrls (some "") = [] ∧
    extractUrls (some "see https://a.example/x\nno link here\nhttps://a.example/x again\nhttps://b.example/y")
      = ["https://a.example/x", "https://b.example/y"] := by
  refine ⟨?_, ?_, ?_, ?_, rfl, by decide, by decide⟩
  · cases t with
    | none => exact List.nodup_nil
    | some s =>
      rw [extractUrls_some]
      exact (dedupAux_nodup _ _).map stringMk_injective
  · cases t with
    | none => exact List.nil_sublist _
    | some s =>
      rw [extractUrls_some]
      exact (dedupAux_sublist _ _).map String.mk
  · cases t with
    | none => exact List.Subset.refl _
    | some s =>
      rw [extractUrls_some]
      intro u hu
      obtain ⟨a, ha, rfl⟩ := List.mem_map.mp hu
      rcases dedupAux_complete (lineMatches s.data) [] a ha with hs | hd
      · cases hs
      · exact List.mem_map_of_mem _ hd
  · cases t with
    | none => exact List.Pairwise.nil
    | some s =>
      rw [extractUrls_some]
      refine (List.pairwise_map).mpr ?_
      refine (dedupAux_pairwise_firstIdx (lineMatches s.data) []).imp ?_
      intro a b h
      rwa [firstIdx_map stringMk_injective, firstIdx_map stringMk_injective]

/-- Witness for C1 at the spec's example input. -/
theorem extractUrls_dedup_firstSeen_example :
    extractUrls (some "see https://a.example/x\nno link here\nhttps://a.example/x again\nhttps://b.example/y")
      = ["https://a.example/x", "https://b.example/y"] :=
  (extractUrls_dedup_firstSeen
    (some "see https://a.example/x\nno link here\nhttps://a.example/x again\nhttps://b.example/y")).2.2.2.2.2.2

/-! ### Claim C3: verdict thresholds -/

/-- C3: the fallback verdict function maps scores to (label, badge)
pairs by inclusive lower-bound thresholds evaluated highest-first, with
the four tiers at `≥ 85`, `[65, 85)`, `[40, 65)` and `< 40`; the scores
85, 84, 40 and 39 land in the four (pairwise distinct) tiers. -/
theorem verdictFromScore_tiers (s : ℚ) :
    (85 ≤ s → verdictFromScore s = ("Likely true", "Strong support")) ∧
    (65 ≤ s → s < 85 → verdictFromScore s = ("Mixed / uncertain", "Some support")) ∧
    (40 ≤ s → s < 65 → verdictFromScore s = ("Unclear", "Weak support")) ∧
    (s < 40 → verdictFromScore s = ("Unclear / likely false", "Low support")) ∧
    verdictFromScore 85 = ("Likely true", "Strong support") ∧
    verdictFromScore 84 = ("Mixed / uncertain", "Some support") ∧
    verdictFromScore 40 = ("Unclear", "Weak support") ∧
    verdictFromScore 39 = ("Unclear / likely false", "Low support") ∧
    [("Likely true", "Strong support"), ("Mixed / uncertain", "Some support"),
      ("Unclear", "Weak support"), ("Unclear / likely false", "Low support")].Pairwise (· ≠ ·) := by
  refine ⟨?_, ?_, ?_, ?_, ?_, ?_, ?_, ?_, by decide⟩
  · intro h
    simp only [verdictFromScore]
    rw [if_pos h]
  · intro h65 h85
    simp only [verdictFromScore]
    rw [if_neg (not_le.mpr h85), if_pos h65]
  · intro h40 h65
    simp only [verdictFromScore]
    rw [if_neg (not_le.mpr (by linarith : s < 85)), if_neg (not_le.mpr h65), if_pos h40]
  · intro h40
    simp only [verdictFromScore]
    rw [if_neg (not_le.mpr (by linarith : s < 85)), if_neg (not_le.mpr (by linarith : s < 65)),
      if_neg (not_le.mpr h40)]
  · simp only [verdictFromScore]
    rw [if_pos (by norm_num : (85 : ℚ) ≤ 85)]
  · simp only [verdictFromScore]
    rw [if_neg (by norm_num : ¬ (85 : ℚ) ≤ 84), if_pos (by norm_num : (65 : ℚ) ≤ 84)]
  · simp only [verdictFromScore]
    rw [if_neg (by norm_num : ¬ (85 : ℚ) ≤ 40), if_neg (by norm_num : ¬ (65 : ℚ) ≤ 40),
      if_pos (by norm_num : (40 : ℚ) ≤ 40)]
  · simp only [verdictFromScore]
    rw [if_neg (by norm_num : ¬ (85 : ℚ) ≤ 39), if_neg (by norm_num : ¬ (65 : ℚ) ≤ 39),
      if_neg (by norm_num : ¬ (40 : ℚ) ≤ 39)]

/-- Witness for C3 in the top tier. -/
theorem verdictFromScore_tiers_at_90 :
    verdictFromScore 90 = ("Likely true", "Strong support") :=
  (verdictFromScore_tiers 90).1 (by norm_num)

/-! ### Data model: payload, page state, external environment -/

/-- The four status values used by `setStatus` (apps.js line 106). -/
inductive ConnState where
  | idle
  | checking
  | ok
  | error
deriving DecidableEq

/-- The string a `ConnState` renders as when no detail text is given
(`detail || state`, apps.js line 118). -/
def connName : ConnState → String
  | .idle => "idle"
  | .checking => "checking"
  | .ok => "ok"
  | .error => "error"

/-- A citation object of the service payload (spec section 6: all fields
optional). -/
structure Citation where
  title : Option String
  url : Option String
  snippet : Option String
deriving DecidableEq

/-- The parsed JSON body of `/api/check` (spec section 6: every field
optional), or the sentinel produced on a parse failure. -/
structure RespData where
  score : Option ℚ
  confidence : Option ℚ
  verdict : Option String
  badge : Option String
  why : Option (List String)
  citations : Option (List Citation)
  error : Option String
  raw : Option String
deriving DecidableEq

/-- The DOM fields the script writes: status pill/text, result card,
score bar, explanation list, citations box, debug box. -/
structure UI where
  apiState : ConnState
  apiDetail : String
  resultTitle : String
  resultBadge : String
  scoreLabel : String
  scoreBarWidth : String
  scorePct : String
  whyList : String
  citationsBox : String
  debugBox : String
deriving DecidableEq

/-- Whole-page state: the two inputs, the debug-panel toggle, and the
rendered `UI`. -/
structure AppState where
  claimInputVal : String
  evidenceInputVal : String
  debugOpen : Bool
  ui : UI
deriving DecidableEq

/-- Host-environment functions the script calls but does not define:
`new URL(u).hostname` (`none` models the constructor throwing) and
`JSON.stringify` of the success-path debug object. -/
structure Ext where
  hostname : String → Option String
  dbgString : String → List String → RespData → String

/-- apps.js line 17. -/
def WORKER_BASE : String := "https://rapid-flower-be72truthlayer.truthlayer-ai.workers.dev"

/-- apps.js line 20. -/
def CHECK_ENDPOINT : String := "/api/check"

/-- apps.js line 23: submit timeout in milliseconds. -/
def FETCH_TIMEOUT_MS : ℕ := 20000

/-- apps.js line 125: probe timeout in milliseconds. -/
def PING_TIMEOUT_MS : ℕ := 8000

/-- The literal `<div class="muted">None</div>` written to the citations
box by the clear handler and every error branch. -/
def noneDiv : String := "<div class=\"muted\">None</div>"

/-- `setStatus` (apps.js lines 105–120): records the state on the pill
and status elements and sets the status text to `detail || state`. -/
def setStatus (ui : UI) (state : ConnState) (detail : String) : UI :=
  { ui with
    apiState := state,
    apiDetail := if detail.isEmpty then connName state else detail }

/-! ### Response normalisation helpers -/

/-- JS `Response.ok`: status in the range 200–299. -/
def resOk (status : ℕ) : Bool := 200 ≤ status && status ≤ 299

/-- Truthiness of `data?.error` (apps.js line 310): present and
non-empty. -/
def hasErrorMarker (d : RespData) : Bool :=
  match d.error with
  | some s => !s.isEmpty
  | none => false

/-- The sentinel object built when `JSON.parse` throws (apps.js line
153): an error marker plus the raw text. -/
def sentinel (raw : String) : RespData :=
  { score := none, confidence := none, verdict := none, badge := none,
    why := none, citations := none,
    error := some "Bad response (not JSON)", raw := some raw }

/-- The `data` value produced by `checkClaim` (apps.js lines 148–156):
the parsed body when `JSON.parse` succeeds, the sentinel otherwise. -/
def parseBody (parsed : Option RespData) (raw : String) : RespData :=
  parsed.getD (sentinel raw)

/-- The three ways the awaited `checkClaim` call can end: a response
(with status, status text, raw body and `JSON.parse` result), an
`AbortError` thrown by the expired timeout, or another network error. -/
inductive FetchOutcome where
  | response (status : ℕ) (statusText : String) (raw : String) (parsed : Option RespData)
  | abortErr (e : String)
  | netErr (e : String)

/-! ### Rendering helpers (apps.js lines 77–102, 341–353) -/

/-- List map with the element index, as JS `Array.prototype.map`
provides it. -/
def mapWithIndex (f : ℕ → α → β) : ℕ → List α → List β
  | _, [] => []
  | i, c :: cs => f i c :: mapWithIndex f (i + 1) cs

/-- One citation entry of `renderCitations` (apps.js lines 80–98):
title defaulting to `Source {1-based index}` when falsy, url/snippet
defaulting to empty, everything `<`-escaped, host from `new URL` with
empty string on a parse failure. -/
def renderCitation (ext : Ext) (i : ℕ) (c : Citation) : String :=
  let title := escLt (jsOrS c.title ("Source " ++ toString (i + 1)))
  let url := escLt (jsOrS c.url "")
  let snippet := escLt (jsOrS c.snippet "")
  let host :=
    match c.url with
    | none => ""
    | some u => (ext.hostname u).getD ""
  "\n        <div class=\"citation\">\n          <div class=\"citation-title\">\n            <a href=\""
    ++ url ++ "\" target=\"_blank\" rel=\"noopener noreferrer\">" ++ title ++ "</a>\n            "
    ++ (if host.isEmpty then "" else "<span class=\"citation-host\">" ++ host ++ "</span>")
    ++ "\n          </div>\n          "
    ++ (if snippet.isEmpty then "" else "<div class=\"citation-snippet\">" ++ snippet ++ "</div>")
    ++ "\n        </div>\n      "

/-- `renderCitations` (apps.js lines 77–102). -/
def renderCitations (ext : Ext) (citations : List Citation) : String :=
  if citations.isEmpty then noneDiv
  else "<div class=\"citations\">"
    ++ String.join (mapWithIndex (renderCitation ext) 0 citations) ++ "</div>"

/-- apps.js line 346. -/
def noEvidenceHint : String := "No evidence links provided — add 1–2 credible sources."

/-- apps.js line 347. -/
def shortClaimHint : String := "Claim is short — add who/what/when/where details."

/-- apps.js line 348. -/
def minimalModeHint : String := "No explanation returned — backend may be in minimal mode."

/-- The fallback hint list (apps.js lines 345–348): a no-evidence hint,
then a short-claim hint, then a generic hint only when the list is still
empty. -/
def fallbackHints (claim : String) (evidenceUrls : List String) : List String :=
  let hints :=
    (if evidenceUrls.isEmpty then [noEvidenceHint] else []) ++
    (if claim.length < 12 then [shortClaimHint] else [])
  if hints.isEmpty then [minimalModeHint] else hints

/-- `hints.map(x => ...<li>...).join("")` (apps.js line 349): the fixed
hint strings are embedded unescaped. -/
def renderHintsHtml (hints : List String) : String :=
  String.join (hints.map (fun x => "<li>" ++ x ++ "</li>"))

/-- apps.js line 351: service-provided explanations are `<`-escaped. -/
def renderWhyHtml (why : List String) : String :=
  String.join (why.map (fun x => "<li>" ++ escLt x ++ "</li>"))

/-! ### The check handler (apps.js lines 262–392) as a pure transition -/

/-- The `checking` writes done before the request is awaited
(apps.js lines 272–279). -/
def checkingUI (ui : UI) : UI :=
  { setStatus ui .checking "Checking…" with
    resultTitle := "Checking…",
    resultBadge := "",
    scoreBarWidth := "0%",
    scorePct := "—",
    whyList := "<li class=\"muted\">Working…</li>",
    citationsBox := "<div class=\"muted\">Loading…</div>",
    debugBox := "" }

/-- The non-OK-status branch (apps.js lines 285–307). -/
def httpErrorUI (status : ℕ) (statusText raw : String) (ui : UI) : UI :=
  { setStatus ui .error ("API error (" ++ toString status ++ ")") with
    resultTitle := "Error",
    resultBadge := "HTTP " ++ toString status,
    whyList := "<li>Backend returned HTTP " ++ toString status
      ++ ".</li>\n             <li>Most common cause: wrong route or method (needs <b>POST "
      ++ CHECK_ENDPOINT ++ "</b>).</li>",
    citationsBox := noneDiv,
    debugBox := "[HTTP " ++ toString status ++ "] " ++ statusText
      ++ "\n\nRAW:\n" ++ jsSlice raw 2000 }

/-- The error-marker branch (apps.js lines 310–325). -/
def payloadErrorUI (d : RespData) (raw : String) (ui : UI) : UI :=
  { setStatus ui .error "Bad response" with
    resultTitle := "Error",
    resultBadge := "Bad response",
    whyList := "<li>Backend responded, but payload wasn’t usable JSON.</li>\n             <li>See Debug for raw response.</li>",
    citationsBox := noneDiv,
    debugBox := "[BAD JSON]\n" ++ jsSlice (jsOrS d.raw raw) 2000 }

/-- The catch branch (apps.js lines 368–391): an `AbortError` reports a
timeout, anything else a fetch failure. -/
def catchUI (isAbort : Bool) (e : String) (ui : UI) : UI :=
  let msg := if isAbort then "Request timed out" else "Failed to fetch"
  { setStatus ui .error msg with
    resultTitle := "Error",
    resultBadge := msg,
    whyList := "<li>Frontend couldn’t reach the Worker.</li>\n           <li>Check WORKER_BASE in <code>docs/app.js</code>.</li>\n           <li>Confirm Worker is deployed + route <b>POST "
      ++ CHECK_ENDPOINT ++ "</b> exists.</li>",
    citationsBox := noneDiv,
    debugBox := "[FETCH ERROR]\n" ++ e ++ "\n\nWORKER_BASE=" ++ WORKER_BASE }

/-- The success branch (apps.js lines 328–366): score from
`score ?? confidence ?? 0`, verdict from the payload when truthy else
from the thresholds, clamped-rounded percentage, explanations from the
payload when non-empty else synthesized hints, citations rendered, and
the debug trace stringified. -/
def successUI (ext : Ext) (claim : String) (evidenceUrls : List String)
    (data : RespData) (ui : UI) : UI :=
  let score : ℚ := (data.score.orElse (fun _ => data.confidence)).getD 0
  let v : String × String :=
    match data.verdict with
    | some vs => if vs.isEmpty then verdictFromScore score else (vs, jsOrS data.badge "")
    | none => verdictFromScore score
  let pct : ℤ := clampRound score
  let why : List String := data.why.getD []
  let whyHtml : String :=
    if why.isEmpty then renderHintsHtml (fallbackHints claim evidenceUrls)
    else renderWhyHtml why
  let citations : List Citation := data.citations.getD []
  { setStatus ui .ok "Checked ✅" with
    resultTitle := v.1,
    resultBadge := v.2,
    scoreBarWidth := toString pct ++ "%",
    scorePct := toString pct ++ "%",
    scoreLabel := "Confidence",
    whyList := whyHtml,
    citationsBox := renderCitations ext citations,
    debugBox := ext.dbgString claim evidenceUrls data }

/-- Routing of the awaited outcome through the branch bodies
(apps.js lines 281–391). -/
def handleOutcome (ext : Ext) (claim : String) (evidenceUrls : List String)
    (outcome : FetchOutcome) (ui : UI) : UI :=
  match outcome with
  | .response status statusText raw parsed =>
    let data := parseBody parsed raw
    if !resOk status then httpErrorUI status statusText raw ui
    else if hasErrorMarker data then payloadErrorUI data raw ui
    else successUI ext claim evidenceUrls data ui
  | .abortErr e => catchUI true e ui
  | .netErr e => catchUI false e ui

/-- The whole click handler (apps.js lines 262–392): trim the claim,
extract the evidence URLs, reject an empty claim without any request,
otherwise enter the checking state and route the request outcome. -/
def clickCheck (ext : Ext) (claimVal evidenceVal : String)
    (outcome : FetchOutcome) (ui : UI) : UI :=
  let claim := jsTrimS claimVal
  let evidenceUrls := extractUrls (some evidenceVal)
  if claim.isEmpty then setStatus ui .error "Enter a claim first."
  else handleOutcome ext claim evidenceUrls outcome (checkingUI ui)

/-! ### The other user actions and the startup probe -/

/-- The clear handler (apps.js lines 221–234). -/
def clickClear (st : AppState) : AppState :=
  let ui :=
    { st.ui with
      resultTitle := "—",
      resultBadge := "",
      scoreLabel := "Confidence",
      scoreBarWidth := "0%",
      scorePct := "0%",
      whyList := "",
      citationsBox := noneDiv,
      debugBox := "" }
  { st with
    claimInputVal := "",
    evidenceInputVal := "",
    ui := setStatus ui .idle "API: not checked" }

/-- An example button (apps.js lines 204–216): fill the inputs from a
`claim | url1,url2` template; no other field is touched. -/
def clickExample (tmpl : String) (st : AppState) : AppState :=
  let parts := (splitOnChar '|' tmpl.data).map (fun l => String.mk (jsTrimL l))
  let c := parts.getD 0 ""
  let urls := parts.getD 1 ""
  let st1 := if c.isEmpty then st else { st with claimInputVal := c }
  if urls.isEmpty then st1
  else
    let list := ((splitOnChar ',' urls.data).map (fun l => String.mk (jsTrimL l))).filter
      (fun s => !s.isEmpty)
    { st1 with evidenceInputVal := String.intercalate "\n" list }

/-- The debug toggle (apps.js lines 195–199): flips the panel, touches
nothing else. -/
def debugToggle (st : AppState) : AppState :=
  { st with debugOpen := !st.debugOpen }

/-- Outcome of the startup `pingWorker` call: a response, or a thrown
network/abort error. -/
inductive PingOutcome where
  | response (status : ℕ) (text : String)
  | threw (e : String)

/-- The startup probe (apps.js lines 238–259): set `checking`, await the
ping, then set `ok` or `error` (with a debug excerpt). -/
def bootPing (outcome : PingOutcome) (ui : UI) : UI :=
  let ui1 := setStatus ui .checking "API: checking…"
  match outcome with
  | .response status text =>
    if resOk status then setStatus ui1 .ok "API: reachable"
    else
      { setStatus ui1 .error ("API: unreachable (" ++ toString status ++ ")") with
        debugBox := "[PING] " ++ toString status ++ "\n" ++ jsSlice text 800 }
  | .threw e =>
    { setStatus ui1 .error "API: unreachable" with
      debugBox := "[PING ERROR]\n" ++ e }

/-! ### Concrete instances used by witnesses and counterexamples -/

/-- A trivial external environment (URL parsing always fails, debug
stringification returns the empty string). -/
def extNull : Ext :=
  { hostname := fun _ => none, dbgString := fun _ _ _ => "" }

/-- A blank page state. -/
def uiInit : UI :=
  { apiState := .idle, apiDetail := "", resultTitle := "", resultBadge := "",
    scoreLabel := "", scoreBarWidth := "", scorePct := "", whyList := "",
    citationsBox := "", debugBox := "" }

/-! ### Reduction lemmas for the handler branches -/

theorem clickCheck_eq_handle (ext : Ext) {claimVal : String} (evidenceVal : String)
    (outcome : FetchOutcome) (ui : UI) (h : (jsTrimS claimVal).isEmpty = false) :
    clickCheck ext claimVal evidenceVal outcome ui =
      handleOutcome ext (jsTrimS claimVal) (extractUrls (some evidenceVal)) outcome
        (checkingUI ui) := by
  unfold clickCheck
  simp [h]

theorem handleOutcome_notOk {status : ℕ} (ext : Ext) (claim : String) (ev : List String)
    (statusText raw : String) (parsed : Option RespData) (ui : UI)
    (h : resOk status = false) :
    handleOutcome ext claim ev (.response status statusText raw parsed) ui =
      httpErrorUI status statusText raw ui := by
  unfold handleOutcome
  simp [h]

theorem handleOutcome_marker {status : ℕ} (ext : Ext) (claim : String) (ev : List String)
    (statusText raw : String) (parsed : Option RespData) (ui : UI)
    (hok : resOk status = true) (hm : hasErrorMarker (parseBody parsed raw) = true) :
    handleOutcome ext claim ev (.response status statusText raw parsed) ui =
      payloadErrorUI (parseBody parsed raw) raw ui := by
  unfold handleOutcome
  simp [hok, hm]

theorem handleOutcome_success {status : ℕ} (ext : Ext) (claim : String) (ev : List String)
    (statusText raw : String) (parsed : Option RespData) (ui : UI)
    (hok : resOk status = true) (hm : hasErrorMarker (parseBody parsed raw) = false) :
    handleOutcome ext claim ev (.response status statusText raw parsed) ui =
      successUI ext claim ev (parseBody parsed raw) ui := by
  unfold handleOutcome
  simp [hok, hm]

theorem handleOutcome_marker_parsed {status : ℕ} (ext : Ext) (claim : String) (ev : List String)
    (statusText raw : String) (d : RespData) (ui : UI)
    (hok : resOk status = true) (hm : hasErrorMarker d = true) :
    handleOutcome ext claim ev (.response status statusText raw (some d)) ui =
      payloadErrorUI d raw ui := by
  unfold handleOutcome parseBody
  simp [hok, hm]

theorem handleOutcome_success_parsed {status : ℕ} (ext : Ext) (claim : String) (ev : List String)
    (statusText raw : String) (d : RespData) (ui : UI)
    (hok : resOk status = true) (hm : hasErrorMarker d = false) :
    handleOutcome ext claim ev (.response status statusText raw (some d)) ui =
      successUI ext claim ev d ui := by
  unfold handleOutcome parseBody
  simp [hok, hm]

theorem append_isEmpty_false (s t : String) (h : s.data ≠ []) : (s ++ t).isEmpty = false := by
  rw [Bool.eq_false_iff]
  intro he
  have hs : s ++ t = "" := (String.isEmpty_iff _).mp he
  have hd : s.data ++ t.data = [] := congrArg String.data hs
  exact h (List.append_eq_nil.mp hd).1

theorem apiErrorDetail_isEmpty (status : ℕ) :
    ("API error (" ++ toString status ++ ")").isEmpty = false := by
  apply append_isEmpty_false
  show "API error (".data ++ (toString status).data ≠ []
  intro h
  exact absurd (List.append_eq_nil.mp h).1 (by decide)

/-! ### Claim C2: displayed score -/

/-- C2: for every OK-status, non-error-marked response, the displayed
score percentage (text and bar width) is `score` falling back to
`confidence` falling back to `0`, rounded and clamped into `[0, 100]`;
the clamp-round map always lands in `[0, 100]`, sends `142.7` to `100`
and `-5` to `0`. -/
theorem displayed_score_clamped (ext : Ext) (claimVal evidenceVal statusText raw : String)
    (status : ℕ) (d : RespData) (ui : UI)
    (hclaim : (jsTrimS claimVal).isEmpty = false) (hok : resOk status = true)
    (hm : hasErrorMarker d = false) :
    (clickCheck ext claimVal evidenceVal (.response status statusText raw (some d)) ui).scorePct
      = toString (clampRound ((d.score.orElse (fun _ => d.confidence)).getD 0)) ++ "%" ∧
    (clickCheck ext claimVal evidenceVal (.response status statusText raw (some d)) ui).scoreBarWidth
      = toString (clampRound ((d.score.orElse (fun _ => d.confidence)).getD 0)) ++ "%" ∧
    (∀ q : ℚ, (0 : ℤ) ≤ clampRound q ∧ clampRound q ≤ 100) ∧
    clampRound (1427 / 10) = 100 ∧ clampRound (-5) = 0 := by
  refine ⟨?_, ?_, ?_, ?_, ?_⟩
  · rw [clickCheck_eq_handle ext evidenceVal _ ui hclaim,
      handleOutcome_success_parsed _ _ _ _ _ _ _ hok hm]
    rfl
  · rw [clickCheck_eq_handle ext evidenceVal _ ui hclaim,
      handleOutcome_success_parsed _ _ _ _ _ _ _ hok hm]
    rfl
  · intro q
    unfold clampRound jsMax jsMin
    constructor <;> split_ifs <;> omega
  · have h1 : (1427 : ℚ) / 10 = Rat.divInt 1427 10 := by
      rw [Rat.divInt_eq_div]; norm_num
    rw [h1]; decide
  · have h2 : (-5 : ℚ) = Rat.divInt (-5) 1 := by
      rw [Rat.divInt_eq_div]; norm_num
    rw [h2]; decide

/-- Witness for C2: a raw score of 142.7 renders as `100%`. -/
theorem displayed_score_clamped_at_142_7 :
    (clickCheck extNull "The earth is round" ""
      (.response 200 "OK" "x" (some
        { score := some (Rat.divInt 1427 10), confidence := none, verdict := none, badge := none,
          why := none, citations := none, error := none, raw := none })) uiInit).scorePct
      = "100%" :=
  (displayed_score_clamped extNull "The earth is round" "" "OK" "x" 200
    { score := some (Rat.divInt 1427 10), confidence := none, verdict := none, badge := none,
      why := none, citations := none, error := none, raw := none }
    uiInit (by decide) (by decide) (by decide)).1.trans (by decide)

/-! ### Claim C4: verdict/badge selection -/

theorem successUI_verdict_present (ext : Ext) (claim : String) (ev : List String)
    (d : RespData) (ui : UI) {vs : String}
    (h : d.verdict = some vs) (hvs : vs.isEmpty = false) :
    (successUI ext claim ev d ui).resultTitle = vs ∧
    (successUI ext claim ev d ui).resultBadge = jsOrS d.badge "" := by
  unfold successUI
  rw [h]
  simp [hvs]

theorem successUI_verdict_missing (ext : Ext) (claim : String) (ev : List String)
    (d : RespData) (ui : UI)
    (h : d.verdict = none ∨ d.verdict = some "") :
    (successUI ext claim ev d ui).resultTitle
        = (verdictFromScore ((d.score.orElse (fun _ => d.confidence)).getD 0)).1 ∧
    (successUI ext claim ev d ui).resultBadge
        = (verdictFromScore ((d.score.orElse (fun _ => d.confidence)).getD 0)).2 := by
  unfold successUI
  rcases h with h | h <;> rw [h] <;> exact ⟨rfl, rfl⟩

/-- A payload carrying a badge but no verdict: the handler ignores the
badge and derives both label and badge from the score. -/
def dBadgeOnly : RespData :=
  { score := some 90, confidence := none, verdict := none, badge := some "custom",
    why := some ["w"], citations := some [], error := none, raw := none }

/-- C4 counterexample: a successful, non-error-marked response whose
badge field is present (`"custom"`) but whose verdict is absent ends up
displaying the threshold-derived badge `"Strong support"`, not the
service-provided one — refuting the claim that the displayed badge is
the service badge whenever it is present. -/
theorem verdict_badge_counterexample :
    dBadgeOnly.badge = some "custom" ∧
    (clickCheck extNull "The earth is round" ""
      (.response 200 "OK" "x" (some dBadgeOnly)) uiInit).resultBadge = "Strong support" ∧
    (clickCheck extNull "The earth is round" ""
      (.response 200 "OK" "x" (some dBadgeOnly)) uiInit).resultBadge ≠ "custom" := by
  refine ⟨rfl, by decide, by decide⟩

/-- C4 (amended): for every successful, non-error-marked response, the
displayed label is the service verdict whenever the verdict field is
present and non-empty, and the badge is then the service badge
defaulting to empty; when the verdict is absent (or empty), both label
and badge are derived from the score via the fixed thresholds — even if
a badge field is present. -/
theorem verdict_selection (ext : Ext) (claimVal evidenceVal statusText raw : String)
    (status : ℕ) (d : RespData) (ui : UI)
    (hclaim : (jsTrimS claimVal).isEmpty = false) (hok : resOk status = true)
    (hm : hasErrorMarker d = false) :
    (∀ vs : String, d.verdict = some vs → vs.isEmpty = false →
      (clickCheck ext claimVal evidenceVal
        (.response status statusText raw (some d)) ui).resultTitle = vs ∧
      (clickCheck ext claimVal evidenceVal
        (.response status statusText raw (some d)) ui).resultBadge = jsOrS d.badge "") ∧
    (d.verdict = none ∨ d.verdict = some "" →
      (clickCheck ext claimVal evidenceVal
        (.response status statusText raw (some d)) ui).resultTitle
          = (verdictFromScore ((d.score.orElse (fun _ => d.confidence)).getD 0)).1 ∧
      (clickCheck ext claimVal evidenceVal
        (.response status statusText raw (some d)) ui).resultBadge
          = (verdictFromScore ((d.score.orElse (fun _ => d.confidence)).getD 0)).2) := by
  have hr : clickCheck ext claimVal evidenceVal
      (.response status statusText raw (some d)) ui =
      successUI ext (jsTrimS claimVal) (extractUrls (some evidenceVal)) d (checkingUI ui) := by
    rw [clickCheck_eq_handle ext evidenceVal _ ui hclaim,
      handleOutcome_success_parsed _ _ _ _ _ _ _ hok hm]
  constructor
  · intro vs hv hvs
    rw [hr]
    exact successUI_verdict_present _ _ _ _ _ hv hvs
  · intro h
    rw [hr]
    exact successUI_verdict_missing _ _ _ _ _ h

/-- Witness for C4 (amended): a present, non-empty verdict is displayed
verbatim. -/
theorem verdict_selection_witness :
    (clickCheck extNull "The earth is round" ""
      (.response 200 "OK" "x" (some
        { score := some 10, confidence := none, verdict := some "Certainly so",
          badge := some "B", why := none, citations := none, error := none,
          raw := none })) uiInit).resultTitle = "Certainly so" :=
  ((verdict_selection extNull "The earth is round" "" "OK" "x" 200
      { score := some 10, confidence := none, verdict := some "Certainly so",
        badge := some "B", why := none, citations := none, error := none, raw := none }
      uiInit (by decide) (by decide) (by decide)).1
    "Certainly so" rfl (by decide)).1

/-! ### Claim C5: fallback explanations -/

theorem successUI_whyList (ext : Ext) (claim : String) (ev : List String)
    (d : RespData) (ui : UI) :
    (successUI ext claim ev d ui).whyList =
      if (d.why.getD []).isEmpty then renderHintsHtml (fallbackHints claim ev)
      else renderWhyHtml (d.why.getD []) := rfl

/-- C5: when the service why-list is absent or empty, the rendered
explanations are the synthesized hints: the no-evidence hint exactly
when the evidence list is empty, then the short-claim hint exactly when
the trimmed claim is shorter than 12 characters, then the generic
minimal-mode hint exactly when neither applies; a claim of length 5
with no evidence yields the two hints in order without the generic one;
a non-empty service why-list is rendered instead. -/
theorem explanations_fallback (ext : Ext) (claimVal evidenceVal statusText raw : String)
    (status : ℕ) (d : RespData) (ui : UI)
    (hclaim : (jsTrimS claimVal).isEmpty = false) (hok : resOk status = true)
    (hm : hasErrorMarker d = false) :
    ((d.why = none ∨ d.why = some []) →
      (clickCheck ext claimVal evidenceVal
        (.response status statusText raw (some d)) ui).whyList
        = renderHintsHtml (fallbackHints (jsTrimS claimVal) (extractUrls (some evidenceVal)))) ∧
    (∀ w : List String, d.why = some w → w.isEmpty = false →
      (clickCheck ext claimVal evidenceVal
        (.response status statusText raw (some d)) ui).whyList = renderWhyHtml w) ∧
    (∀ (c : String) (u : List String),
      fallbackHints c u =
        if u.isEmpty then
          if c.length < 12 then [noEvidenceHint, shortClaimHint] else [noEvidenceHint]
        else
          if c.length < 12 then [shortClaimHint] else [minimalModeHint]) ∧
    fallbackHints "short" [] = [noEvidenceHint, shortClaimHint] ∧
    minimalModeHint ∉ fallbackHints "short" [] := by
  have hr : clickCheck ext claimVal evidenceVal
      (.response status statusText raw (some d)) ui =
      successUI ext (jsTrimS claimVal) (extractUrls (some evidenceVal)) d (checkingUI ui) := by
    rw [clickCheck_eq_handle ext evidenceVal _ ui hclaim,
      handleOutcome_success_parsed _ _ _ _ _ _ _ hok hm]
  refine ⟨?_, ?_, ?_, by decide, by decide⟩
  · intro h
    rw [hr, successUI_whyList]
    rcases h with h | h <;> rw [h] <;> rfl
  · intro w hw hne
    rw [hr, successUI_whyList, hw]
    simp [hne]
  · intro c u
    unfold fallbackHints
    by_cases hu : u.isEmpty <;> by_cases hc : c.length < 12 <;> simp [hu, hc]

/-- Witness for C5: length-5 claim and no evidence render the
no-evidence hint followed by the short-claim hint. -/
theorem explanations_fallback_witness :
    (clickCheck extNull "short" ""
      (.response 200 "OK" "x" (some
        { score := some 10, confidence := none, verdict := none, badge := none,
          why := none, citations := none, error := none, raw := none })) uiInit).whyList
      = "<li>No evidence links provided — add 1–2 credible sources.</li><li>Claim is short — add who/what/when/where details.</li>" :=
  ((explanations_fallback extNull "short" "" "OK" "x" 200
      { score := some 10, confidence := none, verdict := none, badge := none,
        why := none, citations := none, error := none, raw := none }
      uiInit (by decide) (by decide) (by decide)).1 (Or.inl rfl)).trans (by decide)

/-! ### Claim C6: HTTP failure handling -/

theorem jsSlice_length_le (s : String) (n : ℕ) : (jsSlice s n).length ≤ n := by
  show (s.data.take n).length ≤ n
  rw [List.length_take]
  exact min_le_left _ _

/-- C6: a submit whose status is not in 200–299 is routed, whatever the
body, to the HTTP-error branch: the UI enters the error state with the
status code in the badge (`HTTP {status}`) and the status text
(`API error ({status})`), the result title is `Error`, the score area
and citations are not populated from the body, and the debug box holds
the status line and a bounded excerpt of the raw body. -/
theorem http_error_classified (ext : Ext) (claimVal evidenceVal statusText raw : String)
    (status : ℕ) (parsed : Option RespData) (ui : UI)
    (hclaim : (jsTrimS claimVal).isEmpty = false) (hnot : resOk status = false) :
    clickCheck ext claimVal evidenceVal (.response status statusText raw parsed) ui
      = httpErrorUI status statusText raw (checkingUI ui) ∧
    (clickCheck ext claimVal evidenceVal
      (.response status statusText raw parsed) ui).apiState = ConnState.error ∧
    (clickCheck ext claimVal evidenceVal
      (.response status statusText raw parsed) ui).apiDetail
        = "API error (" ++ toString status ++ ")" ∧
    (clickCheck ext claimVal evidenceVal
      (.response status statusText raw parsed) ui).resultTitle = "Error" ∧
    (clickCheck ext claimVal evidenceVal
      (.response status statusText raw parsed) ui).resultBadge = "HTTP " ++ toString status ∧
    (clickCheck ext claimVal evidenceVal
      (.response status statusText raw parsed) ui).scorePct = "—" ∧
    (clickCheck ext claimVal evidenceVal
      (.response status statusText raw parsed) ui).scoreBarWidth = "0%" ∧
    (clickCheck ext claimVal evidenceVal
      (.response status statusText raw parsed) ui).citationsBox = noneDiv ∧
    (clickCheck ext claimVal evidenceVal
      (.response status statusText raw parsed) ui).debugBox
        = "[HTTP " ++ toString status ++ "] " ++ statusText ++ "\n\nRAW:\n" ++ jsSlice raw 2000 := by
  have hr : clickCheck ext claimVal evidenceVal
      (.response status statusText raw parsed) ui
      = httpErrorUI status statusText raw (checkingUI ui) := by
    rw [clickCheck_eq_handle ext evidenceVal _ ui hclaim,
      handleOutcome_notOk _ _ _ _ _ _ _ hnot]
  refine ⟨hr, ?_, ?_, ?_, ?_, ?_, ?_, ?_, ?_⟩ <;> rw [hr]
  · rfl
  · unfold httpErrorUI setStatus
    simp [apiErrorDetail_isEmpty status]
  · rfl
  · rfl
  · rfl
  · rfl
  · rfl
  · rfl

/-- Witness for C6 at status 500. -/
theorem http_error_classified_at_500 :
    (clickCheck extNull "The earth is round" ""
      (.response 500 "Server Error" "boom" none) uiInit).resultBadge = "HTTP 500" ∧
    (clickCheck extNull "The earth is round" ""
      (.response 500 "Server Error" "boom" none) uiInit).apiState = ConnState.error ∧
    (clickCheck extNull "The earth is round" ""
      (.response 500 "Server Error" "boom" none) uiInit).scorePct = "—" := by
  have h := http_error_classified extNull "The earth is round" "" "Server Error" "boom"
    500 none uiInit (by decide) (by decide)
  exact ⟨h.2.2.2.2.1.trans (by decide), h.2.1, h.2.2.2.2.2.1⟩

/-! ### Claim C7: payload failure handling -/

/-- C7: a JSON parse failure never raises — `checkClaim` substitutes a
sentinel carrying the error marker and the raw text; an OK-status body
whose data carries an error marker is routed to the payload-error
branch: the UI enters the error state (`Bad response`), and the raw
body (the sentinel's raw text on a parse failure) is placed in the
debug box truncated to at most 2000 characters. -/
theorem payload_error_classified (ext : Ext) (claimVal evidenceVal statusText raw : String)
    (status : ℕ) (parsed : Option RespData) (ui : UI)
    (hclaim : (jsTrimS claimVal).isEmpty = false) (hok : resOk status = true) :
    (∀ r0 : String, parseBody none r0 = sentinel r0 ∧
      (sentinel r0).error = some "Bad response (not JSON)" ∧
      (sentinel r0).raw = some r0 ∧
      hasErrorMarker (sentinel r0) = true) ∧
    (hasErrorMarker (parseBody parsed raw) = true →
      clickCheck ext claimVal evidenceVal (.response status statusText raw parsed) ui
        = payloadErrorUI (parseBody parsed raw) raw (checkingUI ui) ∧
      (clickCheck ext claimVal evidenceVal
        (.response status statusText raw parsed) ui).apiState = ConnState.error ∧
      (clickCheck ext claimVal evidenceVal
        (.response status statusText raw parsed) ui).apiDetail = "Bad response" ∧
      (clickCheck ext claimVal evidenceVal
        (.response status statusText raw parsed) ui).resultTitle = "Error" ∧
      (clickCheck ext claimVal evidenceVal
        (.response status statusText raw parsed) ui).resultBadge = "Bad response" ∧
      (clickCheck ext claimVal evidenceVal
        (.response status statusText raw parsed) ui).citationsBox = noneDiv ∧
      (clickCheck ext claimVal evidenceVal
        (.response status statusText raw parsed) ui).debugBox
          = "[BAD JSON]\n" ++ jsSlice (jsOrS (parseBody parsed raw).raw raw) 2000 ∧
      (jsSlice (jsOrS (parseBody parsed raw).raw raw) 2000).length ≤ 2000) ∧
    (parsed = none →
      (clickCheck ext claimVal evidenceVal
        (.response status statusText raw parsed) ui).debugBox
          = "[BAD JSON]\n" ++ jsSlice raw 2000) := by
  refine ⟨fun r0 => ⟨rfl, rfl, rfl, rfl⟩, ?_, ?_⟩
  · intro hmk
    have hr : clickCheck ext claimVal evidenceVal
        (.response status statusText raw parsed) ui
        = payloadErrorUI (parseBody parsed raw) raw (checkingUI ui) := by
      rw [clickCheck_eq_handle ext evidenceVal _ ui hclaim,
        handleOutcome_marker _ _ _ _ _ _ _ hok hmk]
    refine ⟨hr, ?_, ?_, ?_, ?_, ?_, ?_, jsSlice_length_le _ _⟩ <;> rw [hr] <;> rfl
  · intro hp
    subst hp
    have hmk : hasErrorMarker (parseBody none raw) = true := rfl
    have hr : clickCheck ext claimVal evidenceVal
        (.response status statusText raw none) ui
        = payloadErrorUI (parseBody none raw) raw (checkingUI ui) := by
      rw [clickCheck_eq_handle ext evidenceVal _ ui hclaim,
        handleOutcome_marker _ _ _ _ _ _ _ hok hmk]
    rw [hr]
    show "[BAD JSON]\n" ++ jsSlice (jsOrS (some raw) raw) 2000
      = "[BAD JSON]\n" ++ jsSlice raw 2000
    have hor : jsOrS (some raw) raw = raw := by
      show (if raw.isEmpty then raw else raw) = raw
      split <;> rfl
    rw [hor]

/-- Witness for C7: status 200 with a non-JSON body. -/
theorem payload_error_classified_example :
    (clickCheck extNull "The earth is round" ""
      (.response 200 "OK" "<html>oops</html>" none) uiInit).resultBadge = "Bad response" ∧
    (clickCheck extNull "The earth is round" ""
      (.response 200 "OK" "<html>oops</html>" none) uiInit).apiState = ConnState.error ∧
    (clickCheck extNull "The earth is round" ""
      (.response 200 "OK" "<html>oops</html>" none) uiInit).debugBox
        = "[BAD JSON]\n<html>oops</html>" := by
  have h := payload_error_classified extNull "The earth is round" "" "OK"
    "<html>oops</html>" 200 none uiInit (by decide) (by decide)
  have hmk : hasErrorMarker (parseBody none "<html>oops</html>") = true := rfl
  exact ⟨(h.2.1 hmk).2.2.2.2.1, (h.2.1 hmk).2.1, (h.2.2 rfl).trans (by decide)⟩

/-! ### Claim C8: timeout vs network failure -/

/-- C8: an expired deadline surfaces as an `AbortError` and is rendered
as `Request timed out`, while a pre-response network failure is
rendered as `Failed to fetch`; both enter the error state and the two
messages are distinct. -/
theorem timeout_vs_network_distinct (ext : Ext) (claimVal evidenceVal e1 e2 : String)
    (ui : UI) (hclaim : (jsTrimS claimVal).isEmpty = false) :
    (clickCheck ext claimVal evidenceVal (.abortErr e1) ui).apiState = ConnState.error ∧
    (clickCheck ext claimVal evidenceVal (.abortErr e1) ui).resultBadge = "Request timed out" ∧
    (clickCheck ext claimVal evidenceVal (.abortErr e1) ui).apiDetail = "Request timed out" ∧
    (clickCheck ext claimVal evidenceVal (.netErr e2) ui).apiState = ConnState.error ∧
    (clickCheck ext claimVal evidenceVal (.netErr e2) ui).resultBadge = "Failed to fetch" ∧
    (clickCheck ext claimVal evidenceVal (.netErr e2) ui).apiDetail = "Failed to fetch" ∧
    ("Request timed out" : String) ≠ "Failed to fetch" := by
  have hA : clickCheck ext claimVal evidenceVal (.abortErr e1) ui
      = catchUI true e1 (checkingUI ui) := by
    rw [clickCheck_eq_handle ext evidenceVal _ ui hclaim]
    rfl
  have hN : clickCheck ext claimVal evidenceVal (.netErr e2) ui
      = catchUI false e2 (checkingUI ui) := by
    rw [clickCheck_eq_handle ext evidenceVal _ ui hclaim]
    rfl
  refine ⟨?_, ?_, ?_, ?_, ?_, ?_, by decide⟩ <;> first
    | (rw [hA]; rfl)
    | (rw [hN]; rfl)

/-- Witness for C8 at concrete inputs. -/
theorem timeout_vs_network_distinct_witness :
    (clickCheck extNull "The earth is round" "" (.abortErr "AbortError") uiInit).resultBadge
      = "Request timed out" ∧
    (clickCheck extNull "The earth is round" "" (.netErr "TypeError") uiInit).resultBadge
      = "Failed to fetch" := by
  have h := timeout_vs_network_distinct extNull "The earth is round" "" "AbortError"
    "TypeError" uiInit (by decide)
  exact ⟨h.2.1, h.2.2.2.2.1⟩

/-! ### Claim C9: who writes the ConnectivityState -/

/-- A page state whose status indicator shows `ok`, as after a
successful check. -/
def stOkExample : AppState :=
  { claimInputVal := "c", evidenceInputVal := "", debugOpen := false,
    ui := setStatus uiInit .ok "Checked ✅" }

/-- C9 counterexample: the clear handler writes the ConnectivityState —
clearing a page whose indicator shows `ok` resets it to `idle`, so the
state is not mutated only by the probe and the check flow. -/
theorem clear_writes_connectivity :
    stOkExample.ui.apiState = ConnState.ok ∧
    (clickClear stOkExample).ui.apiState = ConnState.idle ∧
    (clickClear stOkExample).ui.apiState ≠ stOkExample.ui.apiState := by
  refine ⟨rfl, rfl, by decide⟩

/-- C9 (amended): the ConnectivityState is written by the startup probe
(which always leaves it at `ok` or `error`), by the check flow, and by
the clear action (which resets it to `idle`); the example-fill and
debug-toggle actions never touch the rendered UI at all. -/
theorem connectivity_writers (tmpl : String) (st : AppState) (po : PingOutcome) (ui : UI) :
    (clickExample tmpl st).ui = st.ui ∧
    (debugToggle st).ui = st.ui ∧
    (clickClear st).ui.apiState = ConnState.idle ∧
    ((bootPing po ui).apiState = ConnState.ok ∨ (bootPing po ui).apiState = ConnState.error) := by
  refine ⟨?_, rfl, rfl, ?_⟩
  · unfold clickExample
    dsimp only
    split <;> split <;> rfl
  · cases po with
    | response status text =>
      unfold bootPing
      dsimp only
      by_cases hr : resOk status = true
      · rw [hr]
        exact Or.inl rfl
      · rw [Bool.not_eq_true] at hr
        rw [hr]
        exact Or.inr rfl
    | threw e => exact Or.inr rfl

/-- Witness for C9 (amended) at concrete states. -/
theorem connectivity_writers_witness :
    (debugToggle stOkExample).ui = stOkExample.ui ∧
    (clickClear stOkExample).ui.apiState = ConnState.idle :=
  ⟨(connectivity_writers "a | b" stOkExample (.threw "x") uiInit).2.1,
   (connectivity_writers "a | b" stOkExample (.threw "x") uiInit).2.2.1⟩

/-! ### Claim C10: error branches leave the score area untouched -/

/-- C10: every error ending of a check (HTTP error, payload error,
timeout, network failure) leaves the score bar and score percentage
exactly as the checking state set them (`0%` and `—`) and does not
touch the score label; the error branches write only the status
indicator, result card, explanation list, citations box and debug box. -/
theorem error_paths_preserve_score_area (ext : Ext) (claimVal evidenceVal : String) (ui : UI)
    (hclaim : (jsTrimS claimVal).isEmpty = false) :
    (∀ (status : ℕ) (statusText raw : String) (parsed : Option RespData),
      resOk status = false →
        (clickCheck ext claimVal evidenceVal
          (.response status statusText raw parsed) ui).scoreBarWidth = "0%" ∧
        (clickCheck ext claimVal evidenceVal
          (.response status statusText raw parsed) ui).scorePct = "—" ∧
        (clickCheck ext claimVal evidenceVal
          (.response status statusText raw parsed) ui).scoreLabel = ui.scoreLabel) ∧
    (∀ (status : ℕ) (statusText raw : String) (parsed : Option RespData),
      resOk status = true → hasErrorMarker (parseBody parsed raw) = true →
        (clickCheck ext claimVal evidenceVal
          (.response status statusText raw parsed) ui).scoreBarWidth = "0%" ∧
        (clickCheck ext claimVal evidenceVal
          (.response status statusText raw parsed) ui).scorePct = "—" ∧
        (clickCheck ext claimVal evidenceVal
          (.response status statusText raw parsed) ui).scoreLabel = ui.scoreLabel) ∧
    (∀ e : String,
        (clickCheck ext claimVal evidenceVal (.abortErr e) ui).scoreBarWidth = "0%" ∧
        (clickCheck ext claimVal evidenceVal (.abortErr e) ui).scorePct = "—" ∧
        (clickCheck ext claimVal evidenceVal (.abortErr e) ui).scoreLabel = ui.scoreLabel) ∧
    (∀ e : String,
        (clickCheck ext claimVal evidenceVal (.netErr e) ui).scoreBarWidth = "0%" ∧
        (clickCheck ext claimVal evidenceVal (.netErr e) ui).scorePct = "—" ∧
        (clickCheck ext claimVal evidenceVal (.netErr e) ui).scoreLabel = ui.scoreLabel) := by
  refine ⟨?_, ?_, ?_, ?_⟩
  · intro status statusText raw parsed hnot
    rw [clickCheck_eq_handle ext evidenceVal _ ui hclaim,
      handleOutcome_notOk _ _ _ _ _ _ _ hnot]
    exact ⟨rfl, rfl, rfl⟩
  · intro status statusText raw parsed hok hmk
    rw [clickCheck_eq_handle ext evidenceVal _ ui hclaim,
      handleOutcome_marker _ _ _ _ _ _ _ hok hmk]
    exact ⟨rfl, rfl, rfl⟩
  · intro e
    have hA : clickCheck ext claimVal evidenceVal (.abortErr e) ui
        = catchUI true e (checkingUI ui) := by
      rw [clickCheck_eq_handle ext evidenceVal _ ui hclaim]
      rfl
    rw [hA]
    exact ⟨rfl, rfl, rfl⟩
  · intro e
    have hN : clickCheck ext claimVal evidenceVal (.netErr e) ui
        = catchUI false e (checkingUI ui) := by
      rw [clickCheck_eq_handle ext evidenceVal _ ui hclaim]
      rfl
    rw [hN]
    exact ⟨rfl, rfl, rfl⟩

/-- Witness for C10 at a concrete HTTP failure. -/
theorem error_paths_preserve_score_area_witness :
    (clickCheck extNull "The earth is round" ""
      (.response 500 "Server Error" "boom" none) uiInit).scoreBarWidth = "0%" ∧
    (clickCheck extNull "The earth is round" ""
      (.response 500 "Server Error" "boom" none) uiInit).scorePct = "—" :=
  ⟨((error_paths_preserve_score_area extNull "The earth is round" "" uiInit
      (by decide)).1 500 "Server Error" "boom" none (by decide)).1,
   ((error_paths_preserve_score_area extNull "The earth is round" "" uiInit
      (by decide)).1 500 "Server Error" "boom" none (by decide)).2.1⟩

end TruthLayer
